import Mathlib

/-!
Shallow embedding of the J2534 PassThru session layer of the spacetec
repository (src/j2534/src/main/jni). Two source units are modelled:

* j2534_jni.cpp — the JNI session layer (device registry, connect and
  disconnect, message writing, filters, ioctl). Its device registry is a
  fixed array of 32 J2534DeviceStruct slots guarded by g_device_count.
  Channel handles are computed arithmetically (deviceHandle + 10000); the
  code keeps no channel or filter registry, which the model records
  explicitly so that claims about "currently active" channels are statable.
* j2534_native.cpp — the driver loader (load_j2534_library and its four
  mandatory entry points) and the message marshaller between the Java
  J2534Message record and the fixed-layout PASSTHRU_MSG structure.

Machine integers: jlong is a 64-bit two's-complement integer (modelled as
Int wrapped through wrap64 where the code computes on it), jint is 32 bits,
and — because j2534_native.cpp targets the Windows ABI (windows.h,
LoadLibraryA) — the C type unsigned long of PASSTHRU_MSG fields is 32 bits.
-/

namespace Spacetec

/-! Status and error codes, from j2534_jni.h. -/

def STATUS_NOERROR : Int := 0x00000000
def ERR_NOT_SUPPORTED : Int := 0x00000001
def ERR_INVALID_CHANNEL_ID : Int := 0x00000002
def ERR_INVALID_PROTOCOL_ID : Int := 0x00000003
def ERR_NULL_PARAMETER : Int := 0x00000004
def ERR_INVALID_IOCTL_VALUE : Int := 0x00000005
def ERR_FAILED : Int := 0x00000007
def ERR_DEVICE_NOT_CONNECTED : Int := 0x00000008
def ERR_INVALID_MSG : Int := 0x0000000C
def ERR_INVALID_IOCTL_ID : Int := 0x00000010
def ERR_INVALID_FILTER_ID : Int := 0x00000017

/-! Protocol ids and filter types, from j2534_jni.h. -/

def J1850VPW : Int := 1
def SCI_B_TRANS : Int := 10
def CAN : Int := 5
def ISO15765 : Int := 6

def PASS_FILTER : Int := 1
def BLOCK_FILTER : Int := 2
def FLOW_CONTROL_FILTER : Int := 3

/-- Two's-complement wrap of jlong arithmetic (Java long semantics). The
values exercised by the session layer (handles near 1000, offsets 10000)
stay far from the boundary, where wrap64 is the identity. -/
def wrap64 (x : Int) : Int := (x + 2 ^ 63) % 2 ^ 64 - 2 ^ 63

/-! ## The JNI session layer (j2534_jni.cpp) -/

/-- One slot of the static g_devices array of j2534_jni.cpp. -/
structure J2534DeviceStruct where
  handle : Int
  name : String
  vendor : String
  firmware_version : String
  dll_version : String
  api_version : String
deriving DecidableEq

/-- The mutable globals of j2534_jni.cpp: the device registry
(g_devices together with g_device_count, as the list of populated slots)
and the last-error string (g_last_error). The `channels` field is
session-level bookkeeping: the code keeps no channel registry (connect
merely computes deviceHandle + 10000 and disconnect is a stub), so the
model records each handle returned by a successful connect together with
the device handle it was derived from, and erases it on disconnect. This
ghost field is written by no branch the code does not take; it only makes
the notion of a currently active channel statable. -/
structure JniState where
  devices : List J2534DeviceStruct
  channels : List (Int × Int)
  lastError : String
deriving DecidableEq

/-- Java_com_spacetec_j2534_J2534JniWrapper_initialize: clears the device
registry and the last-error buffer. -/
def initializeState : JniState := ⟨[], [], ""⟩

/-- The device record written into slot g_device_count for loop index i in
scanForDevices: handle 1000 + i and the snprintf-formatted metadata. -/
def mkDevice (i : Nat) : J2534DeviceStruct :=
  { handle := 1000 + (i : Int)
    name := "J2534_Device_" ++ toString i
    vendor := "Vendor_" ++ toString i
    firmware_version := "1.0." ++ toString i
    dll_version := "04.04"
    api_version := "04.04" }

/-- One iteration of the scan loop: if g_device_count < 32, append the
device for loop index i (and add it to the returned list); otherwise do
nothing. -/
def scanStep (devs : List J2534DeviceStruct) (i : Nat) : List J2534DeviceStruct :=
  if devs.length < 32 then devs ++ [mkDevice i] else devs

/-- Java_com_spacetec_j2534_J2534JniWrapper_scanForDevices: runs the
simulated scan loop for i = 0 and i = 1. The function returns the list
of device objects created in this call and has no status return; it never
touches g_last_error. -/
def scanForDevices (s : JniState) : JniState :=
  { s with devices := scanStep (scanStep s.devices 0) 1 }

/-- The handles of the currently registered devices. -/
def deviceHandles (s : JniState) : List Int := s.devices.map (fun d => d.handle)

/-- Java_com_spacetec_j2534_J2534JniWrapper_connect. The code validates
only the protocol id: outside [1,10] it sets the last error and returns
ERR_INVALID_PROTOCOL_ID; otherwise it returns deviceHandle + 10000 as the
channel handle. It never consults the device registry and performs no
driver call (the body is the validation plus the arithmetic). -/
def connect (s : JniState) (deviceHandle protocol _flags _baudrate : Int) :
    JniState × Int :=
  if protocol < 1 ∨ protocol > 10 then
    ({ s with lastError := "Invalid protocol ID" }, ERR_INVALID_PROTOCOL_ID)
  else
    let channelHandle := wrap64 (deviceHandle + 10000)
    ({ s with channels := (channelHandle, deviceHandle) :: s.channels }, channelHandle)

/-- Java_com_spacetec_j2534_J2534JniWrapper_disconnect: the body returns
STATUS_NOERROR unconditionally. The ghost channel bookkeeping drops the
handle. -/
def disconnect (s : JniState) (handle : Int) : JniState × Int :=
  ({ s with channels := s.channels.filter (fun c => c.1 ≠ handle) }, STATUS_NOERROR)

/-- States reachable through the session operations starting from an
initialized wrapper. -/
inductive Reachable : JniState → Prop
  | init : Reachable initializeState
  | scan {s : JniState} : Reachable s → Reachable (scanForDevices s)
  | connectStep {s : JniState} (d p f b : Int) :
      Reachable s → Reachable (connect s d p f b).1
  | disconnectStep {s : JniState} (h : Int) :
      Reachable s → Reachable (disconnect s h).1

/-- The J2534MessageStruct of j2534_jni.cpp, as filled from a Java
J2534Message object by getJavaMessage (long fields protocolID, rxStatus,
txFlags, timestamp; byte-array data which may be null; int
extraDataIndex). -/
structure J2534MessageStruct where
  protocolID : Int
  rxStatus : Int
  txFlags : Int
  timestamp : Int
  data : Option (List Int)
  extraDataIndex : Int
deriving DecidableEq

/-- The validation loop of writeMessages: each non-null element is checked
for protocolID in [1,10]; the first violation returns ERR_INVALID_MSG,
and a fully valid batch returns STATUS_NOERROR. -/
def validateMessages : List (Option J2534MessageStruct) → Int
  | [] => STATUS_NOERROR
  | none :: rest => validateMessages rest
  | some m :: rest =>
      if m.protocolID < 1 ∨ m.protocolID > 10 then ERR_INVALID_MSG
      else validateMessages rest

/-- Java_com_spacetec_j2534_J2534JniWrapper_writeMessages. A null messages
array yields ERR_NULL_PARAMETER; otherwise the batch (the numMessages
elements fetched from the array) is validated. The body contains no
native write call at all — validation is the whole behavior. -/
def writeMessages (messages : Option (List (Option J2534MessageStruct))) : Int :=
  match messages with
  | none => ERR_NULL_PARAMETER
  | some l => validateMessages l

/-- Java_com_spacetec_j2534_J2534JniWrapper_startMessageFilter: a null
mask or pattern yields ERR_NULL_PARAMETER; a filter type other than
PASS_FILTER, BLOCK_FILTER or FLOW_CONTROL_FILTER yields
ERR_INVALID_IOCTL_VALUE; otherwise the filter id 1000 + handle is
returned. The flowControl argument is never examined. -/
def startMessageFilter (handle filterType : Int)
    (mask pattern _flowControl : Option J2534MessageStruct) : Int :=
  if mask = none ∨ pattern = none then ERR_NULL_PARAMETER
  else if filterType ≠ PASS_FILTER ∧ filterType ≠ BLOCK_FILTER ∧
      filterType ≠ FLOW_CONTROL_FILTER then ERR_INVALID_IOCTL_VALUE
  else wrap64 (1000 + handle)

/-- Java_com_spacetec_j2534_J2534JniWrapper_stopMessageFilter: the body
returns STATUS_NOERROR unconditionally, for every handle and filter id. -/
def stopMessageFilter (_handle _filterId : Int) : Int := STATUS_NOERROR

/-- Java_com_spacetec_j2534_J2534JniWrapper_ioctl: the switch recognizes
codes 0x01 (GET_CONFIG), 0x02 (SET_CONFIG), 0x03 (GET_VERSION) and 0x07
(READ_VBATT), each of which breaks to return STATUS_NOERROR with no
effect; every other code sets the last error and returns
ERR_INVALID_IOCTL_ID. -/
def ioctl (ioControlCode : Int) : Int :=
  if ioControlCode = 0x01 ∨ ioControlCode = 0x02 ∨ ioControlCode = 0x03 ∨
      ioControlCode = 0x07 then STATUS_NOERROR
  else ERR_INVALID_IOCTL_ID

/-! ## The message marshaller (j2534_native.cpp)

j2534_native.cpp binds a different Java message class than j2534_jni.cpp:
its J2534Message carries jint fields protocolId, rxStatus, txFlags,
dataSize and extraDataIndex plus a jlong timestamp and a byte array. The
native PASSTHRU_MSG (j2534_native.h) holds unsigned long fields — 32 bits
on the Windows ABI this unit targets — and a fixed 4128-byte Data buffer. -/

/-- C conversion of a signed integer value to the 32-bit unsigned long of
the Windows ABI: reduction modulo 2^32. -/
def toUnsignedLong (x : Int) : Nat := (x % 2 ^ 32).toNat

/-- C static_cast of a 32-bit unsigned long value (n < 2^32, which every
PASSTHRU_MSG field of the model satisfies by construction) back to the
32-bit signed jint: two's-complement reinterpretation. -/
def toJint (n : Nat) : Int := if n < 2 ^ 31 then (n : Int) else (n : Int) - 2 ^ 32

/-- The Java J2534Message record as read and written by j2534_native.cpp
(field signatures: protocolId I, rxStatus I, txFlags I, timestamp J,
dataSize I, extraDataIndex I, data [B). -/
structure JavaMessage where
  protocolId : Int
  rxStatus : Int
  txFlags : Int
  timestamp : Int
  dataSize : Int
  extraDataIndex : Int
  data : Option (List Int)
deriving DecidableEq

/-- PASSTHRU_MSG from j2534_native.h. The numeric fields are 32-bit
unsigned long values; Data is the 4128-byte buffer. -/
structure PASSTHRU_MSG where
  ProtocolID : Nat
  RxStatus : Nat
  TxFlags : Nat
  Timestamp : Nat
  DataSize : Nat
  ExtraDataIndex : Nat
  Data : List Int
deriving DecidableEq

/-- A zero-initialized PASSTHRU_MSG buffer. -/
def zeroNativeMsg : PASSTHRU_MSG := ⟨0, 0, 0, 0, 0, 0, List.replicate 4128 0⟩

/-- convert_java_message_to_native: copies the six numeric fields through
the unsigned-long casts (DataSize comes from the dataSize field of the
Java record, not from the array length), then — when the data array is
non-null — memcpy of min(arrayLength, 4128) bytes into the head of the
Data buffer, leaving the tail of the buffer as it was. -/
def convert_java_message_to_native (m : JavaMessage) (native : PASSTHRU_MSG) :
    PASSTHRU_MSG :=
  let base : PASSTHRU_MSG :=
    { native with
      ProtocolID := toUnsignedLong m.protocolId
      RxStatus := toUnsignedLong m.rxStatus
      TxFlags := toUnsignedLong m.txFlags
      Timestamp := toUnsignedLong m.timestamp
      DataSize := toUnsignedLong m.dataSize
      ExtraDataIndex := toUnsignedLong m.extraDataIndex }
  match m.data with
  | none => base
  | some bytes =>
      let copyLength := min bytes.length 4128
      { base with Data := bytes.take copyLength ++ native.Data.drop copyLength }

/-- convert_native_message_to_java: builds a new J2534Message whose jint
fields are the unsigned-long values cast back to jint, whose timestamp is
the unsigned-long value widened to jlong, and whose data array holds the
first DataSize bytes of the Data buffer (the JNI class and allocation
failures are plumbing outside the model). -/
def convert_native_message_to_java (native : PASSTHRU_MSG) : JavaMessage :=
  { protocolId := toJint native.ProtocolID
    rxStatus := toJint native.RxStatus
    txFlags := toJint native.TxFlags
    timestamp := (native.Timestamp : Int)
    dataSize := toJint native.DataSize
    extraDataIndex := toJint native.ExtraDataIndex
    data := some (native.Data.take native.DataSize) }

/-! ## The driver loader (j2534_native.cpp) -/

/-- The J2534_LIBRARY function table of j2534_native.h: the module handle
plus the twelve resolved entry points, each possibly absent. Pointers are
modelled as opaque numeric addresses. -/
structure J2534_LIBRARY where
  hLibrary : Nat
  PassThruOpen : Option Nat
  PassThruClose : Option Nat
  PassThruConnect : Option Nat
  PassThruDisconnect : Option Nat
  PassThruReadMsgs : Option Nat
  PassThruWriteMsgs : Option Nat
  PassThruStartMsgFilter : Option Nat
  PassThruStopMsgFilter : Option Nat
  PassThruSetProgrammingVoltage : Option Nat
  PassThruReadVersion : Option Nat
  PassThruGetLastError : Option Nat
  PassThruIoctl : Option Nat
deriving DecidableEq

/-- The environment load_j2534_library runs against: the result of
LoadLibraryA on the requested path (none when the image cannot be
loaded), whether malloc succeeds, and the symbol table GetProcAddress
resolves names in. -/
structure LoadEnv where
  loadLibrary : Option Nat
  mallocOk : Bool
  getProcAddress : String → Option Nat

/-- Observable resource effects of the loader. -/
inductive NativeEvent where
  | freeLibrary (h : Nat)
  | freeStruct
deriving DecidableEq

/-- load_j2534_library: LoadLibraryA, malloc of the J2534_LIBRARY struct,
resolution of the twelve entry points by name, then the mandatory-subset
check — if PassThruOpen, PassThruClose, PassThruConnect or
PassThruDisconnect is unresolved, FreeLibrary and free run and the load
returns null. The returned event list records the FreeLibrary and free
calls the code makes on each path. -/
def load_j2534_library (env : LoadEnv) : Option J2534_LIBRARY × List NativeEvent :=
  match env.loadLibrary with
  | none => (none, [])
  | some hLib =>
      if env.mallocOk = false then (none, [NativeEvent.freeLibrary hLib])
      else
        let lib : J2534_LIBRARY :=
          { hLibrary := hLib
            PassThruOpen := env.getProcAddress ("PassThruOpen")
            PassThruClose := env.getProcAddress ("PassThruClose")
            PassThruConnect := env.getProcAddress ("PassThruConnect")
            PassThruDisconnect := env.getProcAddress ("PassThruDisconnect")
            PassThruReadMsgs := env.getProcAddress ("PassThruReadMsgs")
            PassThruWriteMsgs := env.getProcAddress ("PassThruWriteMsgs")
            PassThruStartMsgFilter := env.getProcAddress ("PassThruStartMsgFilter")
            PassThruStopMsgFilter := env.getProcAddress ("PassThruStopMsgFilter")
            PassThruSetProgrammingVoltage :=
              env.getProcAddress ("PassThruSetProgrammingVoltage")
            PassThruReadVersion := env.getProcAddress ("PassThruReadVersion")
            PassThruGetLastError := env.getProcAddress ("PassThruGetLastError")
            PassThruIoctl := env.getProcAddress ("PassThruIoctl") }
        if lib.PassThruOpen = none ∨ lib.PassThruClose = none ∨
            lib.PassThruConnect = none ∨ lib.PassThruDisconnect = none then
          (none, [NativeEvent.freeLibrary hLib, NativeEvent.freeStruct])
        else
          (some lib, [])

/-! ## Concrete message records used by witnesses and counterexamples -/

/-- A message whose protocol id 99 is outside [1,10]. -/
def invalidMsg99 : J2534MessageStruct := ⟨99, 0, 0, 0, none, 0⟩

/-- A valid ISO15765 message (protocol id 6, payload 02 10 03). -/
def validMsg6 : J2534MessageStruct := ⟨6, 0, 0, 0, some [0x02, 0x10, 0x03], 0⟩

/-- The mask message of the section-8 scenario. -/
def filterMaskMsg : J2534MessageStruct := ⟨6, 0, 0, 0, some [0xFF, 0xFF, 0xFF, 0xFF], 0⟩

/-- The pattern message of the section-8 scenario. -/
def filterPatternMsg : J2534MessageStruct := ⟨6, 0, 0, 0, some [0x00, 0x00, 0x07, 0xE8], 0⟩

/-- The device registry right after sixteen scans, which fills all 32
slots. -/
def stateAtCapacity : JniState := scanForDevices^[16] initializeState

/-- A well-formed marshaller message: 3-byte payload, matching dataSize,
timestamp within 32 bits. -/
def roundTripMsg : JavaMessage := ⟨6, 1, 2, 123456, 3, 0, some [16, 32, 48]⟩

/-- A message whose jlong timestamp 2^32 exceeds the 32-bit native
Timestamp field. -/
def timestampOverflowMsg : JavaMessage := ⟨6, 0, 0, 4294967296, 0, 0, some []⟩

/-- A message with a 3-byte payload, below the 4128-byte cap. -/
def smallPayloadMsg : JavaMessage := ⟨6, 0, 0, 0, 3, 0, some [1, 2, 3]⟩

/-- A 4200-byte payload, above the 4128-byte cap. -/
def bigPayload : List Int := List.replicate 4200 7

/-- A message carrying the oversized payload. -/
def bigPayloadMsg : JavaMessage := ⟨6, 0, 0, 0, 4200, 0, some bigPayload⟩

/-- A load environment whose symbol table misses the mandatory
PassThruClose. -/
def envMissingClose : LoadEnv :=
  ⟨some 7, true, fun s => if s = "PassThruClose" then none else some 11⟩

/-- A load environment resolving exactly the four mandatory entry
points. -/
def envMandatoryOnly : LoadEnv :=
  ⟨some 7, true, fun s =>
    if s = "PassThruOpen" ∨ s = "PassThruClose" ∨ s = "PassThruConnect" ∨
        s = "PassThruDisconnect" then some 11 else none⟩

/-! ## Helper lemmas -/

theorem wrap64_eq_self {x : Int} (h1 : -(2 ^ 63) ≤ x) (h2 : x < 2 ^ 63) :
    wrap64 x = x := by
  have e63 : (2 : Int) ^ 63 = 9223372036854775808 := by norm_num
  have e64 : (2 : Int) ^ 64 = 18446744073709551616 := by norm_num
  unfold wrap64
  rw [e63, e64]
  rw [e63] at h1 h2
  omega

theorem connect_devices_eq (s : JniState) (d p f b : Int) :
    (connect s d p f b).1.devices = s.devices := by
  unfold connect
  split <;> rfl

theorem mem_scanStep {devs : List J2534DeviceStruct} {i : Nat}
    {d : J2534DeviceStruct} (hd : d ∈ scanStep devs i) :
    d ∈ devs ∨ d = mkDevice i := by
  unfold scanStep at hd
  split at hd
  · rcases List.mem_append.mp hd with h1 | h1
    · exact Or.inl h1
    · exact Or.inr (List.mem_singleton.mp h1)
  · exact Or.inl hd

theorem scanStep_length (devs : List J2534DeviceStruct) (i : Nat) :
    (scanStep devs i).length
      = if devs.length < 32 then devs.length + 1 else devs.length := by
  unfold scanStep
  split <;> simp_all

theorem scanStep_at_capacity {devs : List J2534DeviceStruct} (i : Nat)
    (h : ¬ devs.length < 32) : scanStep devs i = devs := by
  unfold scanStep
  rw [if_neg h]

/-- Invariant of the session layer: every registered device handle is
1000 or 1001 (the only values the scan loop ever writes). -/
theorem reachable_device_handles {s : JniState} (hs : Reachable s) :
    ∀ d ∈ s.devices, d.handle = 1000 ∨ d.handle = 1001 := by
  induction hs with
  | init => intro d hd; simp [initializeState] at hd
  | scan hprev ih =>
      intro d hd
      replace hd : d ∈ scanStep (scanStep _ 0) 1 := hd
      rcases mem_scanStep hd with h1 | h1
      · rcases mem_scanStep h1 with h2 | h2
        · exact ih d h2
        · left; rw [h2]; decide
      · right; rw [h1]; decide
  | connectStep d2 p f b hprev ih =>
      intro d hd
      rw [connect_devices_eq] at hd
      exact ih d hd
  | disconnectStep h hprev ih =>
      intro d hd
      exact ih d hd

/-! ## Claim theorems (continued) -/

/-- Claim C1 (amended): in every reachable state, connecting to an open
device with a protocol id in [1,10] succeeds and returns the channel
handle deviceHandle + 10000, which is distinct from every currently
registered device handle (though not necessarily from other channel
handles of the same device); with a protocol id outside [1,10] connect
fails with ERR_INVALID_PROTOCOL_ID and creates no channel, and — the
body holding no driver call — no driver is reached. -/
theorem connect_protocol_validation (s : JniState) (hs : Reachable s)
    (dev : J2534DeviceStruct) (hd : dev ∈ s.devices) (p f b : Int) :
    (1 ≤ p ∧ p ≤ 10 →
      (connect s dev.handle p f b).2 = dev.handle + 10000 ∧
      (connect s dev.handle p f b).2 ∉ deviceHandles s) ∧
    (p < 1 ∨ p > 10 →
      (connect s dev.handle p f b).2 = ERR_INVALID_PROTOCOL_ID ∧
      (connect s dev.handle p f b).1.channels = s.channels ∧
      (connect s dev.handle p f b).1.devices = s.devices) := by
  have hh := reachable_device_handles hs dev hd
  constructor
  · rintro ⟨hp1, hp2⟩
    have hcond : ¬ (p < 1 ∨ p > 10) := by omega
    have hval : (connect s dev.handle p f b).2 = wrap64 (dev.handle + 10000) := by
      unfold connect
      rw [if_neg hcond]
    have hb1 : -(2 ^ 63) ≤ dev.handle + 10000 := by
      rcases hh with h | h <;> rw [h] <;> norm_num
    have hb2 : dev.handle + 10000 < 2 ^ 63 := by
      rcases hh with h | h <;> rw [h] <;> norm_num
    have hres : (connect s dev.handle p f b).2 = dev.handle + 10000 := by
      rw [hval, wrap64_eq_self hb1 hb2]
    refine ⟨hres, ?_⟩
    rw [hres]
    intro hcontra
    replace hcontra : dev.handle + 10000 ∈ s.devices.map (fun d => d.handle) :=
      hcontra
    obtain ⟨d2, hd2, heq⟩ := List.mem_map.mp hcontra
    have hh2 := reachable_device_handles hs d2 hd2
    rcases hh with h | h <;> rcases hh2 with h2 | h2 <;> omega
  · intro hcond
    unfold connect
    rw [if_pos hcond]
    exact ⟨rfl, rfl, rfl⟩

/-- Witness for C1 (amended): after one scan, connecting to device 1000
with protocol 6 returns 11000, which is not a registered device handle,
and protocol 99 fails with ERR_INVALID_PROTOCOL_ID. -/
theorem connect_protocol_validation_witness :
    (connect (scanForDevices initializeState) (mkDevice 0).handle 6 0 500000).2
        = (mkDevice 0).handle + 10000 ∧
    (connect (scanForDevices initializeState) (mkDevice 0).handle 6 0 500000).2
        ∉ deviceHandles (scanForDevices initializeState) ∧
    (connect (scanForDevices initializeState) (mkDevice 0).handle 99 0 500000).2
        = ERR_INVALID_PROTOCOL_ID :=
  ⟨((connect_protocol_validation _ (Reachable.scan Reachable.init) (mkDevice 0)
      (by decide) 6 0 500000).1 (by decide)).1,
   ((connect_protocol_validation _ (Reachable.scan Reachable.init) (mkDevice 0)
      (by decide) 6 0 500000).1 (by decide)).2,
   ((connect_protocol_validation _ (Reachable.scan Reachable.init) (mkDevice 0)
      (by decide) 99 0 500000).2 (by decide)).1⟩

/-- Counterexample to C1 as stated: device 1000 is open after a scan, and
two connects on it with valid protocols 5 and 6 both return the channel
handle 11000 — the second connect returns a handle equal to the already
active channel handle 11000, not distinct from it. -/
theorem connect_channel_handle_collision :
    mkDevice 0 ∈ (scanForDevices initializeState).devices ∧
    (mkDevice 0).handle = 1000 ∧
    (connect (scanForDevices initializeState) 1000 5 0 500000).2 = 11000 ∧
    11000 ∈ ((connect (scanForDevices initializeState) 1000 5 0 500000).1.channels.map
        (fun c => c.1)) ∧
    (connect (connect (scanForDevices initializeState) 1000 5 0 500000).1
        1000 6 0 500000).2 = 11000 := by
  refine ⟨by decide, by decide, by decide, by decide, by decide⟩

/-- Claim C5 (amended): the device registry is capacity-bounded at 32
slots — a scan grows it by at most two entries and never past 32, a scan
at capacity leaves the registry unchanged, scanning never touches the
last-error state (no resource-exhaustion error is raised; the function
has no status return at all), and the handles produced by a single scan
from a freshly initialized state are unique. -/
theorem scan_capacity_bound (s : JniState) (hlen : s.devices.length ≤ 32) :
    (scanForDevices s).devices.length ≤ 32 ∧
    (scanForDevices s).devices.length ≤ s.devices.length + 2 ∧
    (s.devices.length = 32 → (scanForDevices s).devices = s.devices) ∧
    (scanForDevices s).lastError = s.lastError ∧
    (deviceHandles (scanForDevices initializeState)).Nodup := by
  refine ⟨?_, ?_, ?_, rfl, by decide⟩
  · show (scanStep (scanStep s.devices 0) 1).length ≤ 32
    rw [scanStep_length, scanStep_length]
    split_ifs <;> omega
  · show (scanStep (scanStep s.devices 0) 1).length ≤ s.devices.length + 2
    rw [scanStep_length, scanStep_length]
    split_ifs <;> omega
  · intro hfull
    show scanStep (scanStep s.devices 0) 1 = s.devices
    rw [scanStep_at_capacity 0 (by omega), scanStep_at_capacity 1 (by omega)]

/-- Witness for C5 (amended): the bound instantiated at the freshly
initialized state. -/
theorem scan_capacity_bound_witness :
    (scanForDevices initializeState).devices.length ≤ 32 ∧
    (scanForDevices initializeState).devices.length
        ≤ initializeState.devices.length + 2 ∧
    (initializeState.devices.length = 32 →
      (scanForDevices initializeState).devices = initializeState.devices) ∧
    (scanForDevices initializeState).lastError = initializeState.lastError ∧
    (deviceHandles (scanForDevices initializeState)).Nodup :=
  scan_capacity_bound initializeState (by decide)

theorem scanForDevices_lastError (s : JniState) :
    (scanForDevices s).lastError = s.lastError := rfl

theorem scanForDevices_devices (s : JniState) :
    (scanForDevices s).devices = scanStep (scanStep s.devices 0) 1 := rfl

theorem scanForDevices_length_add_two {s : JniState}
    (h : s.devices.length ≤ 30) :
    (scanForDevices s).devices.length = s.devices.length + 2 := by
  show (scanStep (scanStep s.devices 0) 1).length = _
  rw [scanStep_length, scanStep_length]
  split_ifs <;> omega

theorem iterate_scan_length (n : Nat) :
    (scanForDevices^[n] initializeState).devices.length = min (2 * n) 32 := by
  induction n with
  | zero => rfl
  | succ k ih =>
      rw [Function.iterate_succ_apply']
      rcases le_or_lt (2 * k) 30 with h | h
      · rw [scanForDevices_length_add_two (by rw [ih]; omega), ih]
        omega
      · have h32 : (scanForDevices^[k] initializeState).devices.length = 32 := by
          rw [ih]; omega
        show (scanStep (scanStep _ 0) 1).length = _
        rw [scanStep_at_capacity 0 (by omega), scanStep_at_capacity 1 (by omega)]
        omega

/-- Counterexample to C5 as stated: already the second scan duplicates
device handles (the loop writes 1000 and 1001 every time), so active
handles are not unique while filling the registry; and once the 32 slots
are full, a further scan leaves the registry unchanged without raising
any error — the last-error state is untouched and the function returns
no failure status. -/
theorem scan_duplicate_handles :
    ¬ (deviceHandles (scanForDevices (scanForDevices initializeState))).Nodup ∧
    stateAtCapacity.devices.length = 32 ∧
    (scanForDevices stateAtCapacity).devices = stateAtCapacity.devices ∧
    (scanForDevices stateAtCapacity).lastError = stateAtCapacity.lastError := by
  have hlen : stateAtCapacity.devices.length = 32 := by
    show (scanForDevices^[16] initializeState).devices.length = 32
    rw [iterate_scan_length]
    norm_num
  refine ⟨by decide, hlen, ?_, scanForDevices_lastError stateAtCapacity⟩
  rw [scanForDevices_devices, scanStep_at_capacity 0 (by omega),
    scanStep_at_capacity 1 (by omega)]

/-- Claim C8 (amended): connect never consults the device registry — for
every state and every device handle, open or not, a protocol id in
[1,10] yields the channel handle deviceHandle + 10000 and records a
channel owned by that handle, leaving the registry untouched. -/
theorem connect_ignores_device_state (s : JniState) (d p f b : Int)
    (hp1 : 1 ≤ p) (hp2 : p ≤ 10) :
    (connect s d p f b).2 = wrap64 (d + 10000) ∧
    (connect s d p f b).1.channels = (wrap64 (d + 10000), d) :: s.channels ∧
    (connect s d p f b).1.devices = s.devices := by
  unfold connect
  rw [if_neg (by omega)]
  exact ⟨rfl, rfl, rfl⟩

/-- Witness for C8 (amended): connect on the never-opened handle 555 in
the freshly initialized state. -/
theorem connect_ignores_device_state_witness :
    (connect initializeState 555 5 0 500000).2 = wrap64 (555 + 10000) ∧
    (connect initializeState 555 5 0 500000).1.channels
        = (wrap64 (555 + 10000), 555) :: initializeState.channels ∧
    (connect initializeState 555 5 0 500000).1.devices
        = initializeState.devices :=
  connect_ignores_device_state initializeState 555 5 0 500000 (by decide)
    (by decide)

/-! ## Helper lemmas for the marshaller -/

theorem toUnsignedLong_of_range {x : Int} (h1 : 0 ≤ x) (h2 : x < 2 ^ 32) :
    ((toUnsignedLong x : Nat) : Int) = x := by
  unfold toUnsignedLong
  omega

theorem toJint_toUnsignedLong {x : Int} (h1 : -(2 ^ 31) ≤ x) (h2 : x < 2 ^ 31) :
    toJint (toUnsignedLong x) = x := by
  unfold toJint toUnsignedLong
  split <;> omega

theorem toUnsignedLong_natCast (n : Nat) (h : n < 2 ^ 32) :
    toUnsignedLong (n : Int) = n := by
  unfold toUnsignedLong
  omega

theorem zeroNativeMsg_Data_length : zeroNativeMsg.Data.length = 4128 := by
  show (List.replicate 4128 (0 : Int)).length = 4128
  rw [List.length_replicate]

theorem native_numeric_fields (m : JavaMessage) (native : PASSTHRU_MSG) :
    (convert_java_message_to_native m native).ProtocolID
        = toUnsignedLong m.protocolId ∧
    (convert_java_message_to_native m native).RxStatus
        = toUnsignedLong m.rxStatus ∧
    (convert_java_message_to_native m native).TxFlags
        = toUnsignedLong m.txFlags ∧
    (convert_java_message_to_native m native).Timestamp
        = toUnsignedLong m.timestamp ∧
    (convert_java_message_to_native m native).DataSize
        = toUnsignedLong m.dataSize ∧
    (convert_java_message_to_native m native).ExtraDataIndex
        = toUnsignedLong m.extraDataIndex := by
  unfold convert_java_message_to_native
  rcases m.data with _ | bytes <;> simp

theorem native_Data_some (m : JavaMessage) (native : PASSTHRU_MSG)
    (bs : List Int) (hdata : m.data = some bs) :
    (convert_java_message_to_native m native).Data
      = bs.take (min bs.length 4128) ++ native.Data.drop (min bs.length 4128) := by
  unfold convert_java_message_to_native
  rw [hdata]

theorem java_fields (n : PASSTHRU_MSG) :
    (convert_native_message_to_java n).protocolId = toJint n.ProtocolID ∧
    (convert_native_message_to_java n).rxStatus = toJint n.RxStatus ∧
    (convert_native_message_to_java n).txFlags = toJint n.TxFlags ∧
    (convert_native_message_to_java n).timestamp = (n.Timestamp : Int) ∧
    (convert_native_message_to_java n).dataSize = toJint n.DataSize ∧
    (convert_native_message_to_java n).extraDataIndex = toJint n.ExtraDataIndex ∧
    (convert_native_message_to_java n).data = some (n.Data.take n.DataSize) :=
  ⟨rfl, rfl, rfl, rfl, rfl, rfl, rfl⟩

theorem javaMessage_ext {a b : JavaMessage}
    (h1 : a.protocolId = b.protocolId) (h2 : a.rxStatus = b.rxStatus)
    (h3 : a.txFlags = b.txFlags) (h4 : a.timestamp = b.timestamp)
    (h5 : a.dataSize = b.dataSize) (h6 : a.extraDataIndex = b.extraDataIndex)
    (h7 : a.data = b.data) : a = b := by
  cases a
  cases b
  simp_all

/-! ## Claim theorems for the marshaller -/

/-- Claim C3 (amended): a Message whose data array is non-null, whose
dataSize field equals its payload length of at most 4128 bytes, whose
timestamp lies in [0, 2^32) — the Windows unsigned long of the native
Timestamp field is 32 bits, so larger jlong timestamps truncate — and
whose jint fields are in the jint range round-trips through the native
PASSTHRU_MSG representation byte-for-byte identically. -/
theorem message_roundtrip_le_4128 (m : JavaMessage) (bs : List Int)
    (hdata : m.data = some bs) (hlen : bs.length ≤ 4128)
    (hsize : m.dataSize = (bs.length : Int))
    (hts1 : 0 ≤ m.timestamp) (hts2 : m.timestamp < 2 ^ 32)
    (hp1 : -(2 ^ 31) ≤ m.protocolId) (hp2 : m.protocolId < 2 ^ 31)
    (hrx1 : -(2 ^ 31) ≤ m.rxStatus) (hrx2 : m.rxStatus < 2 ^ 31)
    (htx1 : -(2 ^ 31) ≤ m.txFlags) (htx2 : m.txFlags < 2 ^ 31)
    (hei1 : -(2 ^ 31) ≤ m.extraDataIndex) (hei2 : m.extraDataIndex < 2 ^ 31) :
    convert_native_message_to_java
      (convert_java_message_to_native m zeroNativeMsg) = m := by
  obtain ⟨e1, e2, e3, e4, e5, e6⟩ := native_numeric_fields m zeroNativeMsg
  have hDataSize :
      (convert_java_message_to_native m zeroNativeMsg).DataSize = bs.length := by
    rw [e5, hsize, toUnsignedLong_natCast bs.length (by omega)]
  have hData : (convert_java_message_to_native m zeroNativeMsg).Data
      = bs ++ zeroNativeMsg.Data.drop bs.length := by
    rw [native_Data_some m zeroNativeMsg bs hdata, min_eq_left hlen,
      List.take_length]
  obtain ⟨j1, j2, j3, j4, j5, j6, j7⟩ :=
    java_fields (convert_java_message_to_native m zeroNativeMsg)
  apply javaMessage_ext
  · rw [j1, e1, toJint_toUnsignedLong hp1 hp2]
  · rw [j2, e2, toJint_toUnsignedLong hrx1 hrx2]
  · rw [j3, e3, toJint_toUnsignedLong htx1 htx2]
  · rw [j4, e4, toUnsignedLong_of_range hts1 hts2]
  · rw [j5, e5, hsize, toUnsignedLong_natCast bs.length (by omega),
      toJint]
    rw [if_pos (by omega)]
  · rw [j6, e6, toJint_toUnsignedLong hei1 hei2]
  · rw [j7, hDataSize, hData, hdata, List.take_left]

/-- Witness for C3 (amended): a concrete well-formed message with a
3-byte payload round-trips identically. -/
theorem message_roundtrip_le_4128_witness :
    convert_native_message_to_java
      (convert_java_message_to_native roundTripMsg zeroNativeMsg)
      = roundTripMsg :=
  message_roundtrip_le_4128 roundTripMsg [16, 32, 48] rfl (by decide)
    (by decide) (by decide) (by decide) (by decide) (by decide) (by decide)
    (by decide) (by decide) (by decide) (by decide) (by decide)

/-- Counterexample to C3 as stated: the message with jlong timestamp 2^32
and empty payload (length 0 ≤ 4128) does not round-trip — the native
Timestamp field is a 32-bit Windows unsigned long, so the decoded
timestamp is 0, not 2^32. -/
theorem message_roundtrip_timestamp_counterexample :
    timestampOverflowMsg.data = some [] ∧
    timestampOverflowMsg.timestamp = 4294967296 ∧
    (convert_native_message_to_java (convert_java_message_to_native
        timestampOverflowMsg zeroNativeMsg)).timestamp = 0 ∧
    convert_native_message_to_java (convert_java_message_to_native
        timestampOverflowMsg zeroNativeMsg) ≠ timestampOverflowMsg := by
  have hts : (convert_native_message_to_java (convert_java_message_to_native
      timestampOverflowMsg zeroNativeMsg)).timestamp = 0 := by decide
  refine ⟨rfl, rfl, hts, fun hcontra => ?_⟩
  have h2 := congrArg JavaMessage.timestamp hcontra
  rw [hts] at h2
  exact absurd h2 (by decide)

/-- Claim C7: when the payload exceeds 4128 bytes, the native Data buffer
receives exactly the first 4128 bytes and the rest is dropped; when the
payload is at most 4128 bytes, it is copied in full, unmodified, at the
head of the buffer. -/
theorem payload_truncation_policy (m : JavaMessage) (bs : List Int)
    (native : PASSTHRU_MSG) (hdata : m.data = some bs)
    (hbuf : native.Data.length = 4128) :
    (4128 < bs.length →
      (convert_java_message_to_native m native).Data = bs.take 4128) ∧
    (bs.length ≤ 4128 →
      (convert_java_message_to_native m native).Data
        = bs ++ native.Data.drop bs.length) := by
  constructor
  · intro h
    rw [native_Data_some m native bs hdata, min_eq_right (by omega),
      List.drop_eq_nil_of_le (by omega), List.append_nil]
  · intro h
    rw [native_Data_some m native bs hdata, min_eq_left h, List.take_length]

/-- Witness for C7: a 3-byte payload is copied whole, and a 4200-byte
payload is cut to its first 4128 bytes. -/
theorem payload_truncation_policy_witness :
    (convert_java_message_to_native smallPayloadMsg zeroNativeMsg).Data
        = [1, 2, 3] ++ zeroNativeMsg.Data.drop 3 ∧
    (convert_java_message_to_native bigPayloadMsg zeroNativeMsg).Data
        = bigPayload.take 4128 :=
  ⟨(payload_truncation_policy smallPayloadMsg [1, 2, 3] zeroNativeMsg rfl
      zeroNativeMsg_Data_length).2 (by decide),
   (payload_truncation_policy bigPayloadMsg bigPayload zeroNativeMsg rfl
      zeroNativeMsg_Data_length).1 (by norm_num [bigPayload])⟩

/-- Claim C6: load_j2534_library fails (returns null) whenever one of the
four mandatory entry points — open, close, connect, disconnect — is
unresolved, and on that path both FreeLibrary and free run, so neither
the loaded image nor the handle structure leaks; when all four mandatory
entry points resolve, the load succeeds regardless of which non-mandatory
entry points are absent, with the table carrying every resolution
result. -/
theorem load_library_mandatory_entry_points (env : LoadEnv) (hLib : Nat)
    (hload : env.loadLibrary = some hLib) (hmalloc : env.mallocOk = true) :
    ((env.getProcAddress ("PassThruOpen") = none ∨
      env.getProcAddress ("PassThruClose") = none ∨
      env.getProcAddress ("PassThruConnect") = none ∨
      env.getProcAddress ("PassThruDisconnect") = none) →
      load_j2534_library env
        = (none, [NativeEvent.freeLibrary hLib, NativeEvent.freeStruct])) ∧
    (env.getProcAddress ("PassThruOpen") ≠ none →
      env.getProcAddress ("PassThruClose") ≠ none →
      env.getProcAddress ("PassThruConnect") ≠ none →
      env.getProcAddress ("PassThruDisconnect") ≠ none →
      ∃ lib : J2534_LIBRARY, load_j2534_library env = (some lib, []) ∧
        lib.hLibrary = hLib ∧
        lib.PassThruOpen = env.getProcAddress ("PassThruOpen") ∧
        lib.PassThruClose = env.getProcAddress ("PassThruClose") ∧
        lib.PassThruConnect = env.getProcAddress ("PassThruConnect") ∧
        lib.PassThruDisconnect = env.getProcAddress ("PassThruDisconnect") ∧
        lib.PassThruReadMsgs = env.getProcAddress ("PassThruReadMsgs") ∧
        lib.PassThruIoctl = env.getProcAddress ("PassThruIoctl")) := by
  unfold load_j2534_library
  rw [hload]
  simp only [hmalloc]
  rw [if_neg (by decide)]
  constructor
  · intro h
    rw [if_pos h]
  · intro h1 h2 h3 h4
    rw [if_neg (by tauto)]
    exact ⟨_, rfl, rfl, rfl, rfl, rfl, rfl, rfl, rfl⟩

/-- Witness for C6: a symbol table missing PassThruClose makes the load
fail with the image unloaded and the structure freed, while a table
resolving only the four mandatory names loads successfully. -/
theorem load_library_mandatory_entry_points_witness :
    load_j2534_library envMissingClose
        = (none, [NativeEvent.freeLibrary 7, NativeEvent.freeStruct]) ∧
    (∃ lib : J2534_LIBRARY, load_j2534_library envMandatoryOnly = (some lib, []) ∧
      lib.hLibrary = 7 ∧
      lib.PassThruOpen = envMandatoryOnly.getProcAddress ("PassThruOpen") ∧
      lib.PassThruClose = envMandatoryOnly.getProcAddress ("PassThruClose") ∧
      lib.PassThruConnect = envMandatoryOnly.getProcAddress ("PassThruConnect") ∧
      lib.PassThruDisconnect
          = envMandatoryOnly.getProcAddress ("PassThruDisconnect") ∧
      lib.PassThruReadMsgs = envMandatoryOnly.getProcAddress ("PassThruReadMsgs") ∧
      lib.PassThruIoctl = envMandatoryOnly.getProcAddress ("PassThruIoctl")) :=
  ⟨(load_library_mandatory_entry_points envMissingClose 7 rfl rfl).1
      (by decide),
   (load_library_mandatory_entry_points envMandatoryOnly 7 rfl rfl).2
      (by decide) (by decide) (by decide) (by decide)⟩

/-- Counterexample to C8 as stated: right after initialize no device is
open, yet connect with device handle 555 and the valid protocol 5
returns the channel handle 10555 (not an error), and the resulting
reachable state contains the channel (10555, 555) whose owning device is
not open. -/
theorem reachable_channel_without_device :
    Reachable (connect initializeState 555 5 0 500000).1 ∧
    (connect initializeState 555 5 0 500000).1.devices = [] ∧
    (connect initializeState 555 5 0 500000).1.channels = [(10555, 555)] ∧
    (connect initializeState 555 5 0 500000).2 = 10555 ∧
    (connect initializeState 555 5 0 500000).2 ≠ ERR_INVALID_PROTOCOL_ID :=
  ⟨Reachable.connectStep 555 5 0 500000 Reachable.init, by decide, by decide,
   by decide, by decide⟩

theorem validateMessages_invalid {l : List (Option J2534MessageStruct)}
    (h : ∃ msg : J2534MessageStruct, some msg ∈ l ∧
      (msg.protocolID < 1 ∨ msg.protocolID > 10)) :
    validateMessages l = ERR_INVALID_MSG := by
  induction l with
  | nil => obtain ⟨msg, hmem, _⟩ := h; simp at hmem
  | cons head rest ih =>
      obtain ⟨msg, hmem, hbad⟩ := h
      cases head with
      | none =>
          rcases List.mem_cons.mp hmem with heq | hmem2
          · exact absurd heq (by simp)
          · exact ih ⟨msg, hmem2, hbad⟩
      | some m =>
          by_cases hm : m.protocolID < 1 ∨ m.protocolID > 10
          · unfold validateMessages; rw [if_pos hm]
          · rcases List.mem_cons.mp hmem with heq | hmem2
            · injection heq with heq2
              subst heq2
              exact absurd hbad hm
            · unfold validateMessages
              rw [if_neg hm]
              exact ih ⟨msg, hmem2, hbad⟩

theorem validateMessages_valid {l : List (Option J2534MessageStruct)}
    (h : ∀ msg : J2534MessageStruct, some msg ∈ l →
      1 ≤ msg.protocolID ∧ msg.protocolID ≤ 10) :
    validateMessages l = STATUS_NOERROR := by
  induction l with
  | nil => rfl
  | cons head rest ih =>
      cases head with
      | none =>
          show validateMessages rest = STATUS_NOERROR
          exact ih fun msg hm => h msg (List.mem_cons_of_mem _ hm)
      | some m =>
          have hm := h m (List.mem_cons_self _ _)
          unfold validateMessages
          rw [if_neg (by omega)]
          exact ih fun msg hmm => h msg (List.mem_cons_of_mem _ hmm)

/-! ## Claim theorems -/

/-- Claim C2: writeMessages fails with ERR_NULL_PARAMETER on a null
messages array; a batch holding any message with protocol id outside
[1,10] fails with ERR_INVALID_MSG; a batch in which every message has
protocol id in [1,10] returns STATUS_NOERROR. The source function makes
no native write call at all, so no message of a rejected batch is ever
forwarded to a driver — validation is the whole body. -/
theorem writeMessages_validation (l : List (Option J2534MessageStruct)) :
    writeMessages none = ERR_NULL_PARAMETER ∧
    ((∃ msg : J2534MessageStruct, some msg ∈ l ∧
        (msg.protocolID < 1 ∨ msg.protocolID > 10)) →
      writeMessages (some l) = ERR_INVALID_MSG) ∧
    ((∀ msg : J2534MessageStruct, some msg ∈ l →
        1 ≤ msg.protocolID ∧ msg.protocolID ≤ 10) →
      writeMessages (some l) = STATUS_NOERROR) :=
  ⟨rfl, fun h => validateMessages_invalid h, fun h => validateMessages_valid h⟩

/-- Witness for C2: a batch with protocol id 99 fails with
ERR_INVALID_MSG, an all-valid batch returns STATUS_NOERROR, and a null
array fails with ERR_NULL_PARAMETER. -/
theorem writeMessages_validation_witness :
    writeMessages (some [some validMsg6, some invalidMsg99]) = ERR_INVALID_MSG ∧
    writeMessages (some [some validMsg6]) = STATUS_NOERROR ∧
    writeMessages none = ERR_NULL_PARAMETER :=
  ⟨(writeMessages_validation [some validMsg6, some invalidMsg99]).2.1
      ⟨invalidMsg99, by decide, by decide⟩,
   (writeMessages_validation [some validMsg6]).2.2 (by
      intro msg hmem
      have heq : some msg = some validMsg6 := List.mem_singleton.mp hmem
      injection heq with heq2
      subst heq2
      decide),
   (writeMessages_validation []).1⟩

/-- Claim C4 (amended): disconnect and stopMessageFilter are
unconditional-success stubs — disconnect always returns STATUS_NOERROR
and stopMessageFilter returns STATUS_NOERROR for every handle and filter
id, including filters of a channel that was just disconnected; no
not-found-class error is ever produced because the code keeps no filter
registry and performs no cascade. -/
theorem stopFilter_always_noerror (s : JniState) (h f : Int) :
    (disconnect s h).2 = STATUS_NOERROR ∧
    stopMessageFilter h f = STATUS_NOERROR ∧
    STATUS_NOERROR ≠ ERR_INVALID_FILTER_ID ∧
    STATUS_NOERROR ≠ ERR_INVALID_CHANNEL_ID ∧
    STATUS_NOERROR ≠ ERR_DEVICE_NOT_CONNECTED :=
  ⟨rfl, rfl, by decide, by decide, by decide⟩

/-- Counterexample to C4 as stated: in the section-8 scenario (scan,
connect device 1000 with protocol 6 giving channel 11000, start a filter
giving id 12000, disconnect the channel), the subsequent
stopMessageFilter call on that filter returns STATUS_NOERROR — success,
as if the filter were still live — rather than a not-found-class error. -/
theorem stopFilter_after_disconnect_success :
    (connect (scanForDevices initializeState) 1000 6 0 500000).2 = 11000 ∧
    startMessageFilter 11000 PASS_FILTER (some filterMaskMsg)
      (some filterPatternMsg) none = 12000 ∧
    (disconnect (connect (scanForDevices initializeState) 1000 6 0 500000).1
        11000).2 = STATUS_NOERROR ∧
    stopMessageFilter 11000 12000 = STATUS_NOERROR := by
  refine ⟨by decide, by decide, rfl, rfl⟩

/-- Claim C9 (code gap): the four recognized ioctl codes 0x01 GET_CONFIG,
0x02 SET_CONFIG, 0x03 GET_VERSION and 0x07 READ_VBATT all return
STATUS_NOERROR with no effect instead of ERR_NOT_SUPPORTED, while codes
outside the recognized set do fail with ERR_INVALID_IOCTL_ID. -/
theorem ioctl_recognized_codes_noerror :
    ioctl 0x01 = STATUS_NOERROR ∧ ioctl 0x02 = STATUS_NOERROR ∧
    ioctl 0x03 = STATUS_NOERROR ∧ ioctl 0x07 = STATUS_NOERROR ∧
    STATUS_NOERROR ≠ ERR_NOT_SUPPORTED ∧
    ioctl 0x04 = ERR_INVALID_IOCTL_ID ∧ ioctl 0x63 = ERR_INVALID_IOCTL_ID := by
  decide

/-- Claim C10: startMessageFilter fails with ERR_NULL_PARAMETER when mask
or pattern is null; with non-null mask and pattern it fails with
ERR_INVALID_IOCTL_VALUE for any filter type outside the pass, block and
flow-control set; and for FLOW_CONTROL_FILTER with non-null mask and
pattern it returns the filter id 1000 + handle even when the flow-control
payload is absent (the argument is never examined). The function performs
no driver call, so both failures happen before any driver interaction. -/
theorem startMessageFilter_validation (handle filterType : Int)
    (mask pattern flowControl : Option J2534MessageStruct) :
    ((mask = none ∨ pattern = none) →
      startMessageFilter handle filterType mask pattern flowControl
        = ERR_NULL_PARAMETER) ∧
    (mask ≠ none → pattern ≠ none → filterType ≠ PASS_FILTER →
      filterType ≠ BLOCK_FILTER → filterType ≠ FLOW_CONTROL_FILTER →
      startMessageFilter handle filterType mask pattern flowControl
        = ERR_INVALID_IOCTL_VALUE) ∧
    (mask ≠ none → pattern ≠ none →
      startMessageFilter handle FLOW_CONTROL_FILTER mask pattern none
        = wrap64 (1000 + handle)) := by
  refine ⟨?_, ?_, ?_⟩
  · intro h
    unfold startMessageFilter
    rw [if_pos h]
  · intro h1 h2 h3 h4 h5
    unfold startMessageFilter
    rw [if_neg (by tauto), if_pos ⟨h3, h4, h5⟩]
  · intro h1 h2
    unfold startMessageFilter
    rw [if_neg (by tauto), if_neg (by decide)]

/-- Witness for C10: with channel handle 11000, a null mask gives
ERR_NULL_PARAMETER, filter type 7 gives ERR_INVALID_IOCTL_VALUE, and a
flow-control filter with absent flow-control payload returns 12000. -/
theorem startMessageFilter_validation_witness :
    startMessageFilter 11000 FLOW_CONTROL_FILTER none (some filterPatternMsg)
      none = ERR_NULL_PARAMETER ∧
    startMessageFilter 11000 7 (some filterMaskMsg) (some filterPatternMsg)
      none = ERR_INVALID_IOCTL_VALUE ∧
    startMessageFilter 11000 FLOW_CONTROL_FILTER (some filterMaskMsg)
      (some filterPatternMsg) none = wrap64 (1000 + 11000) :=
  ⟨(startMessageFilter_validation 11000 FLOW_CONTROL_FILTER none
      (some filterPatternMsg) none).1 (Or.inl rfl),
   (startMessageFilter_validation 11000 7 (some filterMaskMsg)
      (some filterPatternMsg) none).2.1 (by decide) (by decide) (by decide)
      (by decide) (by decide),
   (startMessageFilter_validation 11000 FLOW_CONTROL_FILTER (some filterMaskMsg)
      (some filterPatternMsg) none).2.2 (by decide) (by decide)⟩

end Spacetec
